import Mathlib

/-!
Shallow embedding of the byte-source adapter layer and data model of the
naf.rs repository (files `src/nafcodec-py/nafcodec/pyfile.rs` and
`src/nafcodec/src/data.rs`), together with theorems settling the frozen
claims about it.

Conventions of the embedding:
* Rust `u8`/`u64`/`usize` values are `Nat`; `i32`/`i64` values are `Int`.
  Where the source performs a machine-level conversion (`n as i64` on a
  `u64`) the wrap-around is written out explicitly.
* A Python value returned by a host call is `PyValue`: either `bytes`
  (a byte buffer), an `int`, or a value of some `other` type known only
  by its type name, mirroring exactly the discriminations the source
  performs (`downcast::<PyBytes>`, `extract::<&PyBytes>`,
  `extract::<u64>`, `get_type().name()`).
* A raised Python exception is `PyErr`: its class kind (`OSError`,
  `TypeError`, or something else), the value of its `errno` attribute
  when that attribute is present and is an integer, and its rendered
  message (`e.to_string()`).
* `std::io::Error` values are `IoError`: either built by
  `from_raw_os_error`, or by `IoError::new` with kind `Other` or
  `Unsupported` and a message.
* The CPython "restored exception" side channel (`PyErr::restore`) is
  made explicit: each adapter operation returns, besides its result, an
  `Option PyErr` holding the exception restored to the interpreter
  during the call, if any.
* A Rust panic (the unguarded slice `buf[..b.len()]` when
  `b.len() > buf.len()`) is modelled by an `Option` result being `none`.
* The `f32` percentage computation in `Size`'s display is modelled
  exactly: each cast and arithmetic step rounds its exact rational value
  to the nearest single-precision value, ties to even (no overflow or
  subnormal is reachable there for a nonzero original size).
-/

deriving instance DecidableEq for Except

namespace Naf

/-! ## Python-side values and errors -/

/-- A Python value as discriminated by the adapter: a byte buffer
(`bytes`), an integer (`int`), or any other object, identified by its
type name. -/
inductive PyValue where
  | bytes (data : List Nat)
  | int (n : Int)
  | other (tyName : String)
deriving DecidableEq

/-- The Python type name of a value, as returned by
`obj.get_type().name()`. -/
def PyValue.typeName : PyValue → String
  | .bytes _ => "bytes"
  | .int _ => "int"
  | .other t => t

/-- The exception class of a raised Python error, as far as the adapter
discriminates it: `is_instance_of::<PyOSError>` tests for `osError`;
`PyTypeError::new_err` builds a `typeError`. -/
inductive PyErrKind where
  | osError
  | typeError
  | otherExc
deriving DecidableEq

/-- A raised Python exception: its class kind, the value of its `errno`
attribute when present and an integer (`none` covers both a missing
attribute and a non-integer one, the two cases in which
`getattr("errno")` followed by `extract::<i32>` fails to produce a
code), and its rendered message. -/
structure PyErr where
  kind : PyErrKind
  errnoAttr : Option Int
  message : String
deriving DecidableEq

/-- Smallest `i32` value, used by the `extract::<i32>` range test. -/
def i32Min : Int := -(2 ^ 31)

/-- One past the largest `i32` value. -/
def i32Max : Int := 2 ^ 31

/-! ## Native I/O errors -/

/-- A `std::io::Error` as constructed by the adapter: from a raw OS
error code, or with kind `Other` or `Unsupported` and a message. -/
inductive IoError where
  | rawOs (code : Int)
  | other (msg : String)
  | unsupported (msg : String)
deriving DecidableEq

/-! ## transmute_file_error (pyfile.rs lines 15-34)

The macro reinterprets a raised Python error as a native I/O error:
if the error is an `OSError` instance and its `errno` attribute
extracts as an `i32`, it returns `IoError::from_raw_os_error` on that
code; otherwise it restores the Python error to the interpreter and
returns a generic `ErrorKind::Other` error with the given message.
The returned pair is (error returned to the caller, exception restored
to the interpreter during the call, if any). -/

def transmute_file_error (e : PyErr) (msg : String) : IoError × Option PyErr :=
  if e.kind = PyErrKind.osError then
    match e.errnoAttr with
    | some n =>
        if i32Min ≤ n ∧ n < i32Max then (IoError.rawOs n, none)
        else (IoError.other msg, some e)
    | none => (IoError.other msg, some e)
  else (IoError.other msg, some e)

/-- The `errno` code that `transmute_file_error` succeeds in
extracting, when there is one: the error must be an `OSError` instance
and its `errno` attribute must extract as an `i32`. This is a
verification-side characterisation used to state theorems about the
macro; the macro itself is `transmute_file_error`. -/
def PyErr.extractedErrno (e : PyErr) : Option Int :=
  if e.kind = PyErrKind.osError then
    match e.errnoAttr with
    | some n => if i32Min ≤ n ∧ n < i32Max then some n else none
    | none => none
  else none

/-! ## PyFileRead construction (pyfile.rs lines 44-60)

`PyFileRead::from_ref` calls `read(0)` on the candidate object as a
probe. If the probe call raises, the error propagates (`?`). If the
probe returns a `bytes` object the construction succeeds; otherwise it
fails with a `TypeError` whose message names the observed type. -/

/-- Outcome of `PyFileRead::from_ref` as a function of the host's
response to the `read(0)` probe. `Except.ok ()` stands for the
successfully constructed wrapper (which stores the host object
unchanged). -/
def PyFileRead.from_refResp (probe : Except PyErr PyValue) : Except PyErr Unit :=
  match probe with
  | .error e => .error e
  | .ok (.bytes _) => .ok ()
  | .ok v =>
      .error { kind := PyErrKind.typeError, errnoAttr := none,
               message := "expected bytes, found " ++ v.typeName }

/-- `PyFileRead::from_ref` itself: the host object is a function from
the requested size to a response, and the probe request size is `0`. -/
def PyFileRead.from_ref (host : Nat → Except PyErr PyValue) : Except PyErr Unit :=
  PyFileRead.from_refResp (host 0)

/-! ## PyFileRead read (pyfile.rs lines 62-88) -/

/-- Outcome of one `Read::read` call: `result` is the value returned to
the caller (`none` models the Rust panic raised by the unguarded slice
`buf[..b.len()]` when the host returned more bytes than the buffer
holds), `buf` is the caller's buffer after the call, and `restored` is
the exception restored to the interpreter during the call, if any. -/
structure ReadOutcome where
  result : Option (Except IoError Nat)
  buf : List Nat
  restored : Option PyErr
deriving DecidableEq

/-- One `Read::read` call on a caller buffer `buf`, as a function of the
host's response to `read(buf.len())`:
* host returned `bytes b` with `b.len() ≤ buf.len()`: the first
  `b.len()` cells of the buffer are overwritten with `b` and `b.len()`
  is returned;
* host returned `bytes b` with `b.len() > buf.len()`: the slice
  `buf[..b.len()]` is out of bounds — a panic, modelled as `none`;
* host returned a non-bytes value: a `TypeError` naming the observed
  type is restored to the interpreter and a generic `ErrorKind::Other`
  error is returned to the caller;
* host raised: the error goes through `transmute_file_error`. -/
def PyFileRead.readResp (buf : List Nat) (resp : Except PyErr PyValue) : ReadOutcome :=
  match resp with
  | .ok (.bytes b) =>
      if b.length ≤ buf.length then
        { result := some (.ok b.length),
          buf := b ++ buf.drop b.length,
          restored := none }
      else
        { result := none, buf := buf, restored := none }
  | .ok v =>
      { result := some (.error (IoError.other "fh.read did not return bytes")),
        buf := buf,
        restored := some { kind := PyErrKind.typeError, errnoAttr := none,
                           message := "expected bytes, found " ++ v.typeName } }
  | .error e =>
      let r := transmute_file_error e "read method failed"
      { result := some (.error r.1), buf := buf, restored := r.2 }

/-- `Read::read` itself: the host object's `read` method is called once,
with the caller buffer's capacity as its argument. -/
def PyFileRead.read (host : Nat → Except PyErr PyValue) (buf : List Nat) : ReadOutcome :=
  PyFileRead.readResp buf (host buf.length)

/-! ## PyFileRead seek (pyfile.rs lines 90-116) -/

/-- A `std::io::SeekFrom` value: `Start` carries a `u64`, `Current` and
`End` carry an `i64`. -/
inductive SeekFrom where
  | Start (n : Nat)
  | Current (n : Int)
  | End (n : Int)
deriving DecidableEq

/-- The `n as i64` conversion applied to the `u64` payload of
`SeekFrom::Start`: two's-complement wrap-around at `2^64`. -/
def i64ofU64 (n : Nat) : Int :=
  if n % 2 ^ 64 < 2 ^ 63 then (n % 2 ^ 64 : Nat)
  else (n % 2 ^ 64 : Nat) - 2 ^ 64

/-- The `(offset, whence)` pair the adapter passes to the host's `seek`
method: `Start`/`Current`/`End` are encoded as whence 0/1/2, and the
`Start` offset undergoes the `u64 → i64` cast. -/
def seekArgs : SeekFrom → Int × Nat
  | .Start n => (i64ofU64 n, 0)
  | .Current n => (n, 1)
  | .End n => (n, 2)

/-- Outcome of one `Seek::seek` call: the value returned to the caller
and the exception restored to the interpreter during the call, if
any. -/
structure SeekOutcome where
  result : Except IoError Nat
  restored : Option PyErr
deriving DecidableEq

/-- The `extract::<u64>` discrimination on the host's return value:
succeeds exactly on an integer in `[0, 2^64)`. -/
def extractU64 : PyValue → Option Nat
  | .int n => if 0 ≤ n ∧ n < 2 ^ 64 then some n.toNat else none
  | _ => none

/-- One `Seek::seek` call as a function of the host's response:
* host returned a value extracting as `u64`: that position is returned;
* host returned anything else: a `TypeError` naming the observed type
  is restored and a generic `ErrorKind::Other` error is returned;
* host raised: the caller gets an `ErrorKind::Unsupported` error whose
  message is the rendered text of the Python error; nothing is
  restored and no reinterpretation into an OS error code happens. -/
def PyFileRead.seekResp (resp : Except PyErr PyValue) : SeekOutcome :=
  match resp with
  | .ok v =>
      match extractU64 v with
      | some n => { result := .ok n, restored := none }
      | none =>
          { result := .error (IoError.other "fh.seek did not return position"),
            restored := some { kind := PyErrKind.typeError, errnoAttr := none,
                               message := "expected int, found " ++ v.typeName } }
  | .error e =>
      { result := .error (IoError.unsupported e.message), restored := none }

/-- `Seek::seek` itself: the host object's `seek` method is called once
with the offset and whence computed by `seekArgs`. -/
def PyFileRead.seek (host : Int → Nat → Except PyErr PyValue) (sf : SeekFrom) : SeekOutcome :=
  PyFileRead.seekResp (host (seekArgs sf).1 (seekArgs sf).2)

/-! ## A conforming in-memory host object

Used to express the "no bytes are consumed by the probe" part of the
construction claim: a host whose `read(n)` honours the file-like
contract (returns at most `n` bytes and advances by as many). -/

/-- A simple in-memory file-like host: its contents and a cursor. -/
structure MemFile where
  data : List Nat
  pos : Nat
deriving DecidableEq

/-- The conforming `read(n)` of the in-memory host: return the next
`min n remaining` bytes and advance the cursor past them. -/
def MemFile.read (f : MemFile) (n : Nat) : MemFile × PyValue :=
  let b := (f.data.drop f.pos).take n
  ({ f with pos := f.pos + b.length }, .bytes b)

/-! ## Flag and Flags (data.rs lines 84-203) -/

/-- A single flag inside header flags (data.rs `Flag`). -/
inductive Flag where
  | Quality
  | Sequence
  | Mask
  | Length
  | Comment
  | Id
  | Title
  | Extended
deriving DecidableEq, Fintype

/-- View the flag as a single byte mask (data.rs `Flag::as_byte`, the
`repr(u8)` discriminants). -/
def Flag.as_byte : Flag → Nat
  | .Quality => 0x1
  | .Sequence => 0x2
  | .Mask => 0x4
  | .Length => 0x8
  | .Comment => 0x10
  | .Id => 0x20
  | .Title => 0x40
  | .Extended => 0x80

/-- The flags for optional content blocks inside a NAF archive
(data.rs `Flags`), an 8-bit mask. -/
structure Flags where
  bits : Nat
deriving DecidableEq

/-- `Flags::new()`: all flags unset. -/
def Flags.new : Flags := ⟨0⟩

/-- `Flags::test`: `(self.0 & flag as u8) != 0`. -/
def Flags.test (f : Flags) (flag : Flag) : Bool :=
  (f.bits &&& flag.as_byte) != 0

/-- `Flags::set`: `self.0 |= flag as u8` (functional form). -/
def Flags.set (f : Flags) (flag : Flag) : Flags :=
  ⟨f.bits ||| flag.as_byte⟩

/-- `Flags::unset`: `self.0 &= !(flag as u8)` (functional form; the u8
complement is xor with 0xFF). -/
def Flags.unset (f : Flags) (flag : Flag) : Flags :=
  ⟨f.bits &&& (flag.as_byte ^^^ 0xFF)⟩

/-- `impl BitOr<Flag> for Flag` (data.rs lines 131-136): combining two
flags yields a `Flags` value holding the bitwise-or of their bytes. -/
def Flag.bitor (a b : Flag) : Flags :=
  ⟨a.as_byte ||| b.as_byte⟩

/-- `impl BitOr<Flag> for Flags` (data.rs lines 192-197). -/
def Flags.bitor (f : Flags) (b : Flag) : Flags :=
  ⟨f.bits ||| b.as_byte⟩

/-! ## Size (data.rs lines 274-301) -/

/-- Reporting of one archive block's original vs compressed byte size
(data.rs `Size`). -/
structure Size where
  block : String
  original : Nat
  compressed : Nat
deriving DecidableEq

/-- `Size::new`: the compressed size defaults to the original size when
none is supplied. -/
def Size.new (block : String) (original : Nat) (compressed : Option Nat) : Size :=
  match compressed with
  | some real_size => ⟨block, original, real_size⟩
  | none => ⟨block, original, original⟩

/-- Round `a / b` to the nearest integer, ties to even — the rounding
IEEE-754 applies to significands and the rounding `{:.3}` applies to
the decimal expansion of the formatted value. -/
def roundHalfEven (a b : Nat) : Nat :=
  let q := a / b
  let r := a % b
  if 2 * r < b then q
  else if b < 2 * r then q + 1
  else if q % 2 = 0 then q else q + 1

/-- Left-pad a number below 1000 to three digits, for the fractional
part of the percentage. -/
def pad3 (n : Nat) : String :=
  if n < 10 then "00" ++ toString n
  else if n < 100 then "0" ++ toString n
  else toString n

/-- Fuel-driven floor base-2 logarithm, written with structural
recursion so that concrete evaluation reduces inside the kernel. -/
def log2fuel : Nat → Nat → Nat
  | 0, _ => 0
  | fuel + 1, n => if 2 ≤ n then log2fuel fuel (n / 2) + 1 else 0

/-- `⌊log₂ n⌋` for `n ≥ 1` (`n` itself is always enough fuel). -/
def natLog2 (n : Nat) : Nat := log2fuel n n

/-- `⌊log₂ (a / b)⌋` for positive `a` and `b`: the floor is either
`⌊log₂ a⌋ - ⌊log₂ b⌋` or one less, and one comparison decides
which. -/
def log2floorRat (a b : Nat) : Int :=
  let L : Int := (natLog2 a : Int) - natLog2 b
  if 0 ≤ L then (if b * 2 ^ L.toNat ≤ a then L else L - 1)
  else (if b ≤ a * 2 ^ (-L).toNat then L else L - 1)

/-- Round the nonnegative rational `a / b` (`b ≠ 0`) to the nearest
IEEE-754 single-precision (`f32`) value, ties to even, returned as an
exact fraction (numerator, denominator): the significand
`(a / b) / 2 ^ (⌊log₂ (a / b)⌋ - 23)`, which lies in `[2^23, 2^24)`,
is rounded half-to-even to an integer. Overflow to infinity and
subnormal results are not modelled; every value arising in `Size`'s
percentage computation with a nonzero original size lies well inside
`f32`'s normal range (the ratio is between `100 / 2^64` and
`100 · 2^64`), where this model is exact. -/
def roundF32frac (a b : Nat) : Nat × Nat :=
  if a = 0 then (0, 1)
  else
    let e : Int := log2floorRat a b - 23
    let m :=
      if 0 ≤ e then roundHalfEven a (b * 2 ^ e.toNat)
      else roundHalfEven (a * 2 ^ (-e).toNat) b
    if 0 ≤ e then (m * 2 ^ e.toNat, 1) else (m, 2 ^ (-e).toNat)

/-- The exact value of the `f32` expression
`(compressed as f32 * 100.0) / (original as f32)` for a nonzero
original: the two `u64 → f32` casts, the multiplication (by the
exactly representable `100.0`) and the division each round their exact
result to the nearest `f32`, ties to even, exactly as the program's
single-precision arithmetic does. -/
def percentF32 (compressed original : Nat) : Nat × Nat :=
  let fc := roundF32frac compressed 1
  let fm := roundF32frac (fc.1 * 100) fc.2
  let fo := roundF32frac original 1
  roundF32frac (fm.1 * fo.2) (fm.2 * fo.1)

/-- The percentage as the source's `{:.3}` renders it: the exact value
of the `f32` quotient `compressed as f32 * 100.0 / original as f32`,
correctly rounded to three decimal places (ties to even, matching the
formatter; `roundHalfEven` on the thousandths computes exactly that).
For a zero original the program's float division yields infinity — or
NaN when the compressed size is also zero — which `{:.3}` renders as
`inf` (`NaN`). -/
def percent3 (compressed original : Nat) : String :=
  if original = 0 then (if compressed = 0 then "NaN%" else "inf%")
  else
    let q := percentF32 compressed original
    let t := roundHalfEven (q.1 * 1000) q.2
    toString (t / 1000) ++ "." ++ pad3 (t % 1000) ++ "%"

/-- `impl fmt::Display for Size` (data.rs lines 288-301): equal sizes
render as `<block>: <original>`, otherwise as
`<block>: <compressed> / <original> (<percentage>%)`. -/
def Size.display (s : Size) : String :=
  if s.original = s.compressed then
    s.block ++ ": " ++ toString s.original
  else
    s.block ++ ": " ++ toString s.compressed ++ " / " ++ toString s.original
      ++ " (" ++ percent3 s.compressed s.original ++ ")"

/-! ## Claims about the data model -/

/-- C9: `Flags` behaves as an 8-bit set under bitwise-or union:
`Flags::new()` has no flag set; after `set(Sequence)` and
`set(Quality)`, `test(Mask)` is false while `test(Sequence)` and
`test(Quality)` are true, and `unset(Sequence)` makes `test(Sequence)`
false again; `Flag::Id | Flag::Comment` yields a flag set in which
testing `Id` and `Comment` gives true and testing every other flag
gives false. -/
theorem flags_bitset_c9 :
    (∀ g : Flag, Flags.new.test g = false)
  ∧ (((Flags.new.set Flag.Sequence).set Flag.Quality).test Flag.Mask = false
      ∧ ((Flags.new.set Flag.Sequence).set Flag.Quality).test Flag.Sequence = true
      ∧ ((Flags.new.set Flag.Sequence).set Flag.Quality).test Flag.Quality = true
      ∧ (((Flags.new.set Flag.Sequence).set Flag.Quality).unset Flag.Sequence).test
          Flag.Sequence = false)
  ∧ (∀ g : Flag,
      (Flag.bitor Flag.Id Flag.Comment).test g = (g == Flag.Id || g == Flag.Comment)) := by
  refine ⟨?_, by decide, ?_⟩ <;> intro g <;> cases g <;> decide

/-- C10 counterexample: at `Size::new("seq", 1, Some(16777217))` the
program computes the percentage in `f32`: the cast `16777217 as f32`
rounds to `16777216` (halfway between the representable neighbours
`16777216` and `16777218`, ties to even), `× 100.0` and `/ 1.0` are
then exact, and `{:.3}` prints `1677721600.000` — not the
`1677721700.000` that the claim's exact
`compressed / original × 100` demands. -/
theorem size_display_c10_counterexample :
    (Size.new "seq" 1 (some 16777217)).display
        = "seq: 16777217 / 1 (1677721600.000%)"
  ∧ (Size.new "seq" 1 (some 16777217)).display
        ≠ "seq: 16777217 / 1 (1677721700.000%)" := by
  decide

/-- C10 (amended): `Size::new` defaults the compressed size to the
original size when none is supplied; `Size` displays as
`<block>: <original>` when the two sizes are equal and otherwise as
`<block>: <compressed> / <original> (<percentage>%)` where the
percentage is `compressed / original × 100` computed in IEEE-754
single precision (`f32`, each step rounding to nearest, ties to even)
and rendered to three decimal places; in particular
`Size::new("seq", 1000, Some(250))` renders as
`"seq: 250 / 1000 (25.000%)"` and `Size::new("seq", 1000, None)`
renders as `"seq: 1000"`. -/
theorem size_display_c10 :
    (∀ b o, Size.new b o none = Size.new b o (some o))
  ∧ (∀ b o, (Size.new b o none).display = b ++ ": " ++ toString o)
  ∧ (∀ b o c, o ≠ c →
      (Size.new b o (some c)).display
        = b ++ ": " ++ toString c ++ " / " ++ toString o ++ " (" ++ percent3 c o ++ ")")
  ∧ (Size.new "seq" 1000 (some 250)).display = "seq: 250 / 1000 (25.000%)"
  ∧ (Size.new "seq" 1000 none).display = "seq: 1000" := by
  refine ⟨fun b o => rfl, fun b o => ?_, fun b o c h => ?_, by decide, by decide⟩
  · simp [Size.new, Size.display]
  · simp [Size.new, Size.display, h]

/-- C10 witness: the unequal-size branch of `size_display_c10`
instantiated at the claim's concrete input. -/
theorem size_display_c10_witness :
    (Size.new "seq" 1000 (some 250)).display
      = "seq" ++ ": " ++ toString 250 ++ " / " ++ toString 1000
          ++ " (" ++ percent3 250 1000 ++ ")" :=
  size_display_c10.2.2.1 "seq" 1000 250 (by decide)

/-! ## Claims about the adapter -/

/-- C1: for every adapter read with a caller buffer of capacity `n`,
when the host's `read(n)` returns a byte buffer of length `k ≤ n`, the
adapter copies those `k` bytes into the first `k` positions of the
caller's buffer (leaving the rest untouched) and returns exactly `k`;
in particular `k = 0` is returned as the normal value `Ok 0`, not an
error, and no exception is restored. -/
theorem read_success_c1 (buf b : List Nat) (h : b.length ≤ buf.length) :
    (PyFileRead.read (fun _ => .ok (.bytes b)) buf).result = some (.ok b.length)
  ∧ (PyFileRead.read (fun _ => .ok (.bytes b)) buf).buf.take b.length = b
  ∧ (PyFileRead.read (fun _ => .ok (.bytes b)) buf).buf.drop b.length = buf.drop b.length
  ∧ (PyFileRead.read (fun _ => .ok (.bytes b)) buf).buf.length = buf.length
  ∧ (PyFileRead.read (fun _ => .ok (.bytes b)) buf).restored = none := by
  have hb : PyFileRead.read (fun _ => .ok (.bytes b)) buf
      = { result := some (.ok b.length), buf := b ++ buf.drop b.length, restored := none } := by
    simp only [PyFileRead.read, PyFileRead.readResp]
    rw [if_pos h]
  rw [hb]
  refine ⟨rfl, List.take_left b _, List.drop_left b _, ?_, rfl⟩
  show (b ++ buf.drop b.length).length = buf.length
  simp only [List.length_append, List.length_drop]
  omega

/-- C1 witness: a three-byte buffer receiving two bytes from the host;
the adapter returns 2 and the buffer holds the two bytes followed by
its untouched tail. -/
theorem read_success_c1_witness :
    (PyFileRead.read (fun _ => .ok (.bytes [7, 8])) [0, 0, 0]).result = some (.ok 2)
  ∧ (PyFileRead.read (fun _ => .ok (.bytes [7, 8])) [0, 0, 0]).buf = [7, 8, 0] := by
  have h := read_success_c1 [0, 0, 0] [7, 8] (by decide)
  exact ⟨h.1, by decide⟩

/-- C8: the adapter's read is total only while the host honours its
contract: when the host's `read(n)` returns a byte buffer longer than
the caller's buffer, the unguarded slice `buf[..b.len()]` is out of
bounds and the call panics (modelled as result `none`) instead of
returning an error; no length check guards the copy. -/
theorem read_overlong_panics_c8 (buf b : List Nat) (h : buf.length < b.length) :
    (PyFileRead.read (fun _ => .ok (.bytes b)) buf).result = none
  ∧ (PyFileRead.read (fun _ => .ok (.bytes b)) buf).restored = none := by
  have hb : PyFileRead.read (fun _ => .ok (.bytes b)) buf
      = { result := none, buf := buf, restored := none } := by
    simp only [PyFileRead.read, PyFileRead.readResp]
    rw [if_neg (Nat.not_le.mpr h)]
  rw [hb]
  exact ⟨rfl, rfl⟩

/-- C8 witness: an empty caller buffer and a one-byte host answer make
the read panic. -/
theorem read_overlong_panics_c8_witness :
    (PyFileRead.read (fun _ => .ok (.bytes [1])) ([] : List Nat)).result = none :=
  (read_overlong_panics_c8 [] [1] (by decide)).1

/-- C2 counterexample: a host exception that is not an `OSError`
instance but does expose the integer error code 2 through its `errno`
attribute. The claim, read as stated, demands a native I/O error
carrying code 2; the adapter instead returns the generic failure and
restores the original error, because `transmute_file_error` only
reinterprets `OSError` instances. -/
theorem read_errno_c2_counterexample :
    (PyFileRead.read
        (fun _ => .error ⟨PyErrKind.typeError, some 2, "boom"⟩) [0]).result
      = some (.error (IoError.other "read method failed"))
  ∧ (PyFileRead.read
        (fun _ => .error ⟨PyErrKind.typeError, some 2, "boom"⟩) [0]).result
      ≠ some (.error (IoError.rawOs 2))
  ∧ (PyFileRead.read
        (fun _ => .error ⟨PyErrKind.typeError, some 2, "boom"⟩) [0]).restored
      = some ⟨PyErrKind.typeError, some 2, "boom"⟩ := by
  decide

/-- C2 (amended): for every adapter read whose host read call raises,
if the host error is an `OSError` instance whose `errno` attribute
extracts as an `i32` error code, the adapter returns a native I/O
error carrying that exact code; otherwise — including a non-`OSError`
host error even when it exposes an integer code — the adapter returns
a generic I/O failure and forwards the original host-side error object
unchanged to the host error channel. `PyErr.extractedErrno` is exactly
that extraction condition, so this equation characterises the whole
host-raises branch of the read path. -/
theorem read_host_error_c2 (buf : List Nat) (e : PyErr) :
    PyFileRead.read (fun _ => .error e) buf =
      match e.extractedErrno with
      | some n => { result := some (.error (IoError.rawOs n)), buf := buf, restored := none }
      | none => { result := some (.error (IoError.other "read method failed")),
                  buf := buf, restored := some e } := by
  simp only [PyFileRead.read, PyFileRead.readResp, transmute_file_error, PyErr.extractedErrno]
  rcases e with ⟨k, a, m⟩
  cases k <;> cases a <;> simp
  split <;> simp

/-- C3: construction probes the candidate host object with `read(0)`
and succeeds exactly when the probe returns a byte buffer; a probe
returning any other type fails construction with a `TypeError` naming
the observed type; a probe that raises propagates the raised error
(hence also fails); and on a host honouring the file-like contract the
probe consumes no bytes, since `read(0)` returns the empty buffer and
leaves the host state unchanged. -/
theorem from_ref_probe_c3 :
    (∀ b, PyFileRead.from_ref (fun _ => .ok (.bytes b)) = .ok ())
  ∧ (∀ v : PyValue, (∀ b, v ≠ PyValue.bytes b) →
      PyFileRead.from_ref (fun _ => .ok v)
        = .error ⟨PyErrKind.typeError, none, "expected bytes, found " ++ v.typeName⟩)
  ∧ (∀ e, PyFileRead.from_ref (fun _ => .error e) = .error e)
  ∧ (∀ f : MemFile,
      (MemFile.read f 0).1 = f
      ∧ (MemFile.read f 0).2 = PyValue.bytes []
      ∧ PyFileRead.from_ref (fun n => .ok (MemFile.read f n).2) = .ok ()) := by
  refine ⟨fun b => rfl, fun v hv => ?_, fun e => rfl, fun f => ⟨?_, rfl, rfl⟩⟩
  · cases v with
    | bytes b => exact absurd rfl (hv b)
    | int n => rfl
    | other t => rfl
  · simp [MemFile.read]

/-- C3 witness: probing a host whose `read(0)` returns a list fails
construction with a `TypeError` naming `list`. -/
theorem from_ref_probe_c3_witness :
    PyFileRead.from_ref (fun _ => .ok (PyValue.other "list"))
      = .error ⟨PyErrKind.typeError, none, "expected bytes, found list"⟩ := by
  have h := from_ref_probe_c3.2.1 (PyValue.other "list") (fun b hb => PyValue.noConfusion hb)
  exact h

/-- C4 counterexample: a host `seek` returning the integer `-1`. The
claim, read as stated, demands that the adapter return that integer;
the adapter instead fails with the TypeError-kind failure, because
`extract::<u64>` rejects negative integers. -/
theorem seek_negative_c4_counterexample :
    (PyFileRead.seek (fun _ _ => .ok (PyValue.int (-1))) (SeekFrom.Start 0)).result
      = .error (IoError.other "fh.seek did not return position")
  ∧ (PyFileRead.seek (fun _ _ => .ok (PyValue.int (-1))) (SeekFrom.Start 0)).restored
      = some ⟨PyErrKind.typeError, none, "expected int, found int"⟩ := by
  decide

/-- Unfolding lemma for the success arm of `PyFileRead.seekResp`,
stated with a free value so that its `rfl` proof never forces the
`extract::<u64>` range test. -/
theorem seekResp_ok (v : PyValue) :
    PyFileRead.seekResp (.ok v)
      = match extractU64 v with
        | some n => { result := Except.ok n, restored := none }
        | none =>
          { result := Except.error (IoError.other "fh.seek did not return position"),
            restored := some ⟨PyErrKind.typeError, none,
                              "expected int, found " ++ v.typeName⟩ } := rfl

/-- C4 (amended): the adapter passes the host's `seek` the origin
encoded as whence 0, 1, or 2 for absolute, relative-to-current, and
relative-to-end respectively; when the host returns an integer `p`
with `0 ≤ p < 2^64` the adapter returns exactly `p` as the new
position; when the host returns a non-integer — or an integer outside
the `u64` range, which `extract::<u64>` rejects the same way — the
adapter fails with a TypeError-kind failure naming the observed
type. -/
theorem seek_dispatch_c4 (sf : SeekFrom) (v : PyValue) (p : Nat) (m : Int) :
    ((∀ n, (seekArgs (SeekFrom.Start n)).2 = 0)
      ∧ (∀ i, (seekArgs (SeekFrom.Current i)).2 = 1)
      ∧ (∀ i, (seekArgs (SeekFrom.End i)).2 = 2))
  ∧ (p < 2 ^ 64 →
      PyFileRead.seek (fun _ _ => .ok (PyValue.int p)) sf
        = { result := .ok p, restored := none })
  ∧ ((∀ i : Int, v ≠ PyValue.int i) →
      PyFileRead.seek (fun _ _ => .ok v) sf
        = { result := .error (IoError.other "fh.seek did not return position"),
            restored := some ⟨PyErrKind.typeError, none,
                              "expected int, found " ++ v.typeName⟩ })
  ∧ (m < 0 ∨ 2 ^ 64 ≤ m →
      PyFileRead.seek (fun _ _ => .ok (PyValue.int m)) sf
        = { result := .error (IoError.other "fh.seek did not return position"),
            restored := some ⟨PyErrKind.typeError, none,
                              "expected int, found int"⟩ }) := by
  refine ⟨⟨fun n => rfl, fun i => rfl, fun i => rfl⟩, ?_, ?_, ?_⟩
  · intro hp
    have he : extractU64 (PyValue.int p) = some p := by
      simp only [extractU64]
      rw [if_pos ⟨Int.natCast_nonneg p, by exact_mod_cast hp⟩]
      simp
    have h1 : PyFileRead.seek (fun _ _ => .ok (PyValue.int p)) sf
        = PyFileRead.seekResp (.ok (PyValue.int p)) := rfl
    rw [h1, seekResp_ok, he]
  · intro hv
    cases v with
    | bytes b => exact rfl
    | int i => exact absurd rfl (hv i)
    | other t => exact rfl
  · intro hm
    simp only [PyFileRead.seek, PyFileRead.seekResp, extractU64]
    rw [if_neg (by omega)]
    rfl

/-- C4 witness: a relative-to-current seek on a host returning position
3 returns 3; one returning a `NoneType` value fails with the TypeError
message naming it. -/
theorem seek_dispatch_c4_witness :
    PyFileRead.seek (fun _ _ => .ok (PyValue.int 3)) (SeekFrom.Current 5)
      = { result := .ok 3, restored := none }
  ∧ PyFileRead.seek (fun _ _ => .ok (PyValue.other "NoneType")) (SeekFrom.Current 5)
      = { result := .error (IoError.other "fh.seek did not return position"),
          restored := some ⟨PyErrKind.typeError, none,
                            "expected int, found NoneType"⟩ } := by
  have h := seek_dispatch_c4 (SeekFrom.Current 5) (PyValue.other "NoneType") 3 0
  exact ⟨h.2.1 (by decide), h.2.2.1 (fun i hi => PyValue.noConfusion hi)⟩

/-- C5: whenever a host read or seek returns a value of the wrong type,
the failure is surfaced to the immediate caller as a stream error and,
in addition, a TypeError carrying the observed type name is restored
to the host-runtime error channel. (The adapter makes exactly one host
call per operation by construction, so no retry is possible.) -/
theorem type_mismatch_c5 (buf : List Nat) (v w : PyValue) (sf : SeekFrom) :
    ((∀ b, v ≠ PyValue.bytes b) →
        (PyFileRead.read (fun _ => .ok v) buf).result
            = some (.error (IoError.other "fh.read did not return bytes"))
      ∧ (PyFileRead.read (fun _ => .ok v) buf).restored
            = some ⟨PyErrKind.typeError, none, "expected bytes, found " ++ v.typeName⟩)
  ∧ ((∀ i : Int, w ≠ PyValue.int i) →
        (PyFileRead.seek (fun _ _ => .ok w) sf).result
            = .error (IoError.other "fh.seek did not return position")
      ∧ (PyFileRead.seek (fun _ _ => .ok w) sf).restored
            = some ⟨PyErrKind.typeError, none, "expected int, found " ++ w.typeName⟩) := by
  constructor
  · intro hv
    cases v with
    | bytes b => exact absurd rfl (hv b)
    | int i => exact ⟨rfl, rfl⟩
    | other t => exact ⟨rfl, rfl⟩
  · intro hw
    cases w with
    | bytes b => exact ⟨rfl, rfl⟩
    | int i => exact absurd rfl (hw i)
    | other t => exact ⟨rfl, rfl⟩

/-- C5 witness: a read answered with an `int` and a seek answered with
a `str` both restore a TypeError naming the offending type. -/
theorem type_mismatch_c5_witness :
    (PyFileRead.read (fun _ => .ok (PyValue.int 1)) [0]).restored
        = some ⟨PyErrKind.typeError, none, "expected bytes, found int"⟩
  ∧ (PyFileRead.seek (fun _ _ => .ok (PyValue.other "str")) (SeekFrom.Start 0)).restored
        = some ⟨PyErrKind.typeError, none, "expected int, found str"⟩ := by
  have h := type_mismatch_c5 [0] (PyValue.int 1) (PyValue.other "str") (SeekFrom.Start 0)
  exact ⟨(h.1 (fun b hb => PyValue.noConfusion hb)).2,
         (h.2 (fun i hi => PyValue.noConfusion hi)).2⟩

/-- C6 counterexample: a seek whose host call raises an `OSError`
carrying errno 2 and message `"boom"`. The adapter returns only an
`Unsupported` error holding the rendered text and restores nothing:
the original host-side exception object (with its errno) is discarded,
so a caller in the host runtime cannot inspect or re-raise it,
refuting the claim's "for every adapter operation". -/
theorem seek_discards_host_error_c6_counterexample :
    (PyFileRead.seek (fun _ _ => .error ⟨PyErrKind.osError, some 2, "boom"⟩)
        (SeekFrom.Start 0)).result
      = .error (IoError.unsupported "boom")
  ∧ (PyFileRead.seek (fun _ _ => .error ⟨PyErrKind.osError, some 2, "boom"⟩)
        (SeekFrom.Start 0)).restored
      = none := by
  decide

/-- C6 (amended): failures originating from the host are returned to
the immediate caller as stream-layer errors in every case; the
original host-side error object is preserved (restored to the host
error channel) exactly for read failures that could not be
reinterpreted as a native OS error, while reinterpreted read failures
preserve only the extracted errno code and seek host failures preserve
only the rendered error text inside the returned message. -/
theorem host_error_channels_c6 (buf : List Nat) (sf : SeekFrom) (e : PyErr) :
    (e.extractedErrno = none →
        (PyFileRead.read (fun _ => .error e) buf).result
            = some (.error (IoError.other "read method failed"))
      ∧ (PyFileRead.read (fun _ => .error e) buf).restored = some e)
  ∧ (∀ n, e.extractedErrno = some n →
        (PyFileRead.read (fun _ => .error e) buf).result
            = some (.error (IoError.rawOs n))
      ∧ (PyFileRead.read (fun _ => .error e) buf).restored = none)
  ∧ (PyFileRead.seek (fun _ _ => .error e) sf).result
        = .error (IoError.unsupported e.message)
  ∧ (PyFileRead.seek (fun _ _ => .error e) sf).restored = none := by
  have hr : PyFileRead.read (fun _ => .error e) buf =
      match e.extractedErrno with
      | some n => { result := some (.error (IoError.rawOs n)), buf := buf, restored := none }
      | none => { result := some (.error (IoError.other "read method failed")),
                  buf := buf, restored := some e } := by
    simp only [PyFileRead.read, PyFileRead.readResp, transmute_file_error, PyErr.extractedErrno]
    rcases e with ⟨k, a, m⟩
    cases k <;> cases a <;> simp
    split <;> simp
  refine ⟨?_, ?_, rfl, rfl⟩
  · intro h0
    rw [hr, h0]
    exact ⟨rfl, rfl⟩
  · intro n hn
    rw [hr, hn]
    exact ⟨rfl, rfl⟩

/-- C6 witness: a host error with no extractable errno raised during a
read is restored unchanged to the host error channel. -/
theorem host_error_channels_c6_witness :
    (PyFileRead.read (fun _ => .error ⟨PyErrKind.otherExc, none, "oops"⟩) [0]).restored
      = some ⟨PyErrKind.otherExc, none, "oops"⟩ :=
  ((host_error_channels_c6 [0] (SeekFrom.Start 0)
      ⟨PyErrKind.otherExc, none, "oops"⟩).1 (by decide)).2

/-- C7: every adapter seek whose host call raises surfaces the failure
to the caller as an `Unsupported` I/O error whose message is the
rendered text of the original error, and is never reinterpreted into a
raw OS error code. -/
theorem seek_host_failure_c7 (sf : SeekFrom) (e : PyErr) :
    (PyFileRead.seek (fun _ _ => .error e) sf).result
        = .error (IoError.unsupported e.message)
  ∧ (∀ c : Int, (PyFileRead.seek (fun _ _ => .error e) sf).result
        ≠ .error (IoError.rawOs c)) := by
  refine ⟨rfl, fun c h => ?_⟩
  simp only [PyFileRead.seek, PyFileRead.seekResp] at h
  exact IoError.noConfusion (Except.error.inj h)

/-- C7 witness: a host seek raising an exception with message `"nope"`
surfaces as `Unsupported` with that text. -/
theorem seek_host_failure_c7_witness :
    (PyFileRead.seek (fun _ _ => .error ⟨PyErrKind.otherExc, none, "nope"⟩)
        (SeekFrom.End 1)).result
      = .error (IoError.unsupported "nope") :=
  (seek_host_failure_c7 (SeekFrom.End 1) ⟨PyErrKind.otherExc, none, "nope"⟩).1

end Naf
